import Mathlib

/-!
Verification of the wagtailmeili search-backend core.

This file gives a shallow embedding, in Lean 4, of the parts of the
wagtailmeili repository that the specification's claims are about:

* `query_compiler.py` — `MeilisearchQueryCompiler._process_lookup`,
  `_compile_query`, and `MeilisearchAutocompleteQueryCompiler.get_query`;
* `index.py` — `MeilisearchIndex.__init__` (index naming),
  `_should_skip`, `_process_model_instance`, `prepare_documents`,
  `add_items`, `delete_item`, `bulk_delete_items`,
  `cleanup_stale_documents`;
* `rebuilder.py` — `MeilisearchRebuilder.start` and `finish`.

Python values that can be either one thing or another (a query AST node
or a raw string, a successful call or a raised exception) are embedded
as sum types; calls into the Meilisearch client are embedded by passing
the call's outcome in explicitly as an `Except` value, so that every
control path of the Python source is a computable Lean function of those
outcomes.
-/

namespace Wagtailmeili

/-! ## Python lookup values (`query_compiler.py`)

`_process_lookup(field, lookup, value)` receives an arbitrary Python
value.  The values exercised by the lookup table are strings, numbers,
booleans, and lists/tuples of such; `LookupValue` covers exactly those.
`pyToStr` is Python `str()` (what an f-string interpolation produces),
`pyToRepr` is Python `repr()` (used by `str()` on the elements of a
list), and `pyTruthy` is Python truthiness (`if value:`). -/

inductive LookupValue where
  | str (s : String)
  | num (n : Int)
  | bool (b : Bool)
  | list (vs : List LookupValue)

mutual

def pyToRepr : LookupValue → String
  | .str s => "\x27" ++ s ++ "\x27"
  | .num n => toString n
  | .bool b => if b then "True" else "False"
  | .list vs => "[" ++ String.intercalate ", " (pyToReprList vs) ++ "]"

def pyToReprList : List LookupValue → List String
  | [] => []
  | v :: vs => pyToRepr v :: pyToReprList vs

end

def pyToStr : LookupValue → String
  | .str s => s
  | .num n => toString n
  | .bool b => if b then "True" else "False"
  | .list vs => pyToRepr (.list vs)

def pyTruthy : LookupValue → Bool
  | .str s => s != ""
  | .num n => n != 0
  | .bool b => b
  | .list vs => !vs.isEmpty

/-- `MeilisearchQueryCompiler._process_lookup` (query_compiler.py, lines
46-87).  Returns `none` where the Python code would raise (calling
`.lower()` on a non-string for `iexact`, or unpacking `start, end =
value` for `range` when `value` is not a two-element sequence);
otherwise `some` of the produced filter string.  Unrecognized lookups
log a warning and return the empty string. -/
def process_lookup (field lookup : String) (value : LookupValue) : Option String :=
  if lookup == "exact" then
    some (field ++ ":\"" ++ pyToStr value ++ "\"")
  else if lookup == "iexact" then
    match value with
    | .str s => some (field ++ ":\"" ++ s.toLower ++ "\"")
    | _ => none
  else if lookup == "contains" || lookup == "icontains" then
    some (field ++ ":" ++ pyToStr value)
  else if lookup == "in" then
    match value with
    | .list vs => some (String.intercalate " OR " (vs.map (fun v => field ++ ":" ++ pyToStr v)))
    | v => some (field ++ ":" ++ pyToStr v)
  else if lookup == "gt" then
    some (field ++ " > " ++ pyToStr value)
  else if lookup == "gte" then
    some (field ++ " >= " ++ pyToStr value)
  else if lookup == "lt" then
    some (field ++ " < " ++ pyToStr value)
  else if lookup == "lte" then
    some (field ++ " <= " ++ pyToStr value)
  else if lookup == "range" then
    match value with
    | .list [a, b] => some (field ++ " " ++ pyToStr a ++ " TO " ++ pyToStr b)
    | _ => none
  else if lookup == "exclude" then
    some ("NOT " ++ field ++ ":" ++ pyToStr value)
  else if lookup == "isnull" then
    some (if pyTruthy value then field ++ " = NULL" else field ++ " != NULL")
  else if lookup == "startswith" then
    some (field ++ ":" ++ pyToStr value ++ "*")
  else if lookup == "endswith" then
    some (field ++ ":*" ++ pyToStr value)
  else
    some ""

/-- `MeilisearchQueryCompiler._connect_filters` (query_compiler.py,
lines 89-100). -/
def connect_filters (filters : List String) (connector : String) (negated : Bool) : String :=
  let query_string := String.intercalate (" " ++ connector ++ " ") filters
  if negated then "NOT (" ++ query_string ++ ")" else query_string

/-! ## The Wagtail query AST and `_compile_query` -/

/-- The Wagtail search-query AST node kinds that reach the compiler
(`wagtail.search.query`): the six kinds the compiler handles plus the
explicitly unhandled `Boost` and `Not`. -/
inductive WagtailQuery where
  | matchAll
  | plainText (query_string : String)
  | fuzzy (query_string : String)
  | phrase (query_string : String)
  | and_all (subqueries : List WagtailQuery)
  | or_any (subqueries : List WagtailQuery)
  | boost (subquery : WagtailQuery) (boost_factor : Int)
  | negated (subquery : WagtailQuery)

/-- Python class `__name__` of an AST node. -/
def WagtailQuery.className : WagtailQuery → String
  | .matchAll => "MatchAll"
  | .plainText _ => "PlainText"
  | .fuzzy _ => "Fuzzy"
  | .phrase _ => "Phrase"
  | .and_all _ => "And"
  | .or_any _ => "Or"
  | .boost _ _ => "Boost"
  | .negated _ => "Not"

/-- What `_compile_query` returns in Python: a string for the handled
node kinds, or the query object itself, unmodified, for unhandled ones
(the final `return query` branch). -/
inductive PyQueryValue where
  | str (s : String)
  | node (q : WagtailQuery)

/-- Exceptions of the compilation layer: the `TypeError` Python raises
when `" ".join(...)` meets a non-string element, and the
`NotImplementedError` of the autocomplete compiler. -/
inductive PyCompileError where
  | typeError
  | notImplementedError (msg : String)

/-- `" ".join(...)` over compiled children: propagates a child's
exception, raises `TypeError` on a non-string element, otherwise joins
with a single space. -/
def joinCompiled (results : List (Except PyCompileError PyQueryValue)) :
    Except PyCompileError String := do
  let parts ← results.mapM (fun r => do
    match (← r) with
    | .str s => pure s
    | .node _ => throw PyCompileError.typeError)
  pure (String.intercalate " " parts)

mutual

/-- `MeilisearchQueryCompiler._compile_query` (query_compiler.py, lines
102-116).  The `fields` argument of the Python method is never consulted
(it is only passed down recursively), so it is omitted here. -/
def compile_query : WagtailQuery → Except PyCompileError PyQueryValue
  | .matchAll => .ok (.str "")
  | .and_all subqueries => (joinCompiled (compile_query_list subqueries)).map PyQueryValue.str
  | .or_any subqueries => (joinCompiled (compile_query_list subqueries)).map PyQueryValue.str
  | .plainText s => .ok (.str s)
  | .fuzzy s => .ok (.str s)
  | .phrase s => .ok (.str ("\"" ++ s ++ "\""))
  | q => .ok (.node q)

def compile_query_list : List WagtailQuery → List (Except PyCompileError PyQueryValue)
  | [] => []
  | q :: qs => compile_query q :: compile_query_list qs

end

/-- The value held in `self.query`: normally an AST node, but the code
also tolerates a raw Python string. -/
inductive PyQueryInput where
  | node (q : WagtailQuery)
  | pyStr (s : String)

/-- `MeilisearchAutocompleteQueryCompiler.get_query` (query_compiler.py,
lines 169-179). -/
def autocomplete_get_query : PyQueryInput → Except PyCompileError String
  | .node .matchAll => .ok ""
  | .node (.plainText s) => .ok s
  | .pyStr s => .ok s
  | .node q =>
      .error (.notImplementedError
        ("`" ++ q.className ++ "` is not supported for autocomplete queries."))

/-! ## Index naming (`MeilisearchIndex.__init__`, index.py lines 47-61)

A Django model's `_meta` carries `app_label`, the class `__name__`, a
`proxy` flag and, for proxy models, `proxy_for_model` — the immediate
non-abstract parent, which may itself be a proxy model (Django keeps the
ultimate concrete class separately, in `Options.concrete_model`).  Here
`proxy_for_model` is `some` exactly for proxy models. -/

inductive DjangoModel where
  | mk (app_label : String) (model_name : String) (proxy_for_model : Option DjangoModel)

def DjangoModel.app_label : DjangoModel → String
  | .mk a _ _ => a

def DjangoModel.model_name : DjangoModel → String
  | .mk _ n _ => n

def DjangoModel.proxy_for_model : DjangoModel → Option DjangoModel
  | .mk _ _ p => p

/-- `model._meta.proxy`. -/
def DjangoModel.proxy (m : DjangoModel) : Bool :=
  m.proxy_for_model.isSome

/-- The `self._name` computation of `MeilisearchIndex.__init__`: for a
proxy model, the base model's `app_label` and class name, lower-cased
and joined by an underscore; otherwise the model's own. -/
def meilisearch_index_name (model : DjangoModel) : String :=
  match model.proxy_for_model with
  | some base_model => base_model.app_label.toLower ++ "_" ++ base_model.model_name.toLower
  | none => model.app_label.toLower ++ "_" ++ model.model_name.toLower

/-! ## Skip policy and document projection (index.py, utils.py) -/

/-- One entry of the `skip_models_by_field_value` setting: a field name
and the forbidden value. -/
structure FieldValueRule where
  field : String
  value : String
deriving DecidableEq, Repr

/-- The slice of the backend configuration that document projection
reads: `skip_models` and `skip_models_by_field_value` (the latter a dict
keyed by `"app_label.modelname"`, embedded as an association list). -/
structure BackendConfig where
  skip_models : List String
  skip_models_by_field_value : List (String × FieldValueRule)
deriving DecidableEq, Repr

/-- Python `dict.get(key)` on an association list. -/
def dictGet (d : List (String × FieldValueRule)) (key : String) : Option FieldValueRule :=
  match d.find? (fun kv => kv.fst == key) with
  | some kv => some kv.snd
  | none => none

/-- The model-class data `_should_skip` reads. -/
structure ModelInfo where
  app_label : String
  model_name : String
deriving DecidableEq, Repr

/-- `f"{model._meta.app_label}.{model.__name__}".lower()`. -/
def model_identifier (model : ModelInfo) : String :=
  (model.app_label ++ "." ++ model.model_name).toLower

/-- `model_is_skipped` (utils.py, lines 10-31). -/
def model_is_skipped (model : ModelInfo) (skip_models : List String) : Bool :=
  if skip_models.isEmpty then false
  else (skip_models.map String.toLower).contains (model_identifier model)

/-- The per-record data the projection pipeline reads: the primary key,
whether the record is a Wagtail `Page` instance, the value of its `live`
attribute if it has one, and its other attributes (consulted by
`getattr(item, field, None)` for the field-value rule). -/
structure RecordInstance where
  pk : Nat
  is_page : Bool
  live_attr : Option Bool
  attrs : List (String × String)
deriving DecidableEq, Repr

/-- `getattr(item, field, None)` over the record's attributes. -/
def getattrOpt (item : RecordInstance) (field : String) : Option String :=
  match item.attrs.find? (fun kv => kv.fst == field) with
  | some kv => some kv.snd
  | none => none

/-- Which of the three exclusion checks fires for a record. -/
inductive SkipReason where
  | inSkipList
  | notLive
  | fieldValueMatch
deriving DecidableEq, Repr

/-- `MeilisearchIndex._should_skip` (index.py, lines 205-224), returning
which check fired (the check whose log message is emitted) rather than
only the boolean: the checks run in the source's order — the skip-list
check, then the not-live check on `Page` instances, then the
field-value rule. -/
def should_skip_reason (cfg : BackendConfig) (model : ModelInfo)
    (item : RecordInstance) : Option SkipReason :=
  if model_is_skipped model cfg.skip_models then
    some .inSkipList
  else
    let model_attributes := dictGet cfg.skip_models_by_field_value (model_identifier model)
    if item.is_page && item.live_attr == some false then
      some .notLive
    else
      match model_attributes with
      | some rule =>
          if getattrOpt item rule.field == some rule.value then some .fieldValueMatch
          else none
      | none => none

/-- The boolean `_should_skip` returns. -/
def should_skip (cfg : BackendConfig) (model : ModelInfo) (item : RecordInstance) : Bool :=
  (should_skip_reason cfg model item).isSome

/-- The guard at the top of `_process_model_instance` (index.py, line
229): `getattr(instance, "live", True) is False` makes the method return
`None`, producing no document. -/
def process_model_instance_skips (item : RecordInstance) : Bool :=
  item.live_attr == some false

/-- The document built for one record; the claims only consult document
identity, so only the `id` key (the record's primary key, index.py line
232) is carried. -/
structure MeiliDocument where
  id : Nat
deriving DecidableEq, Repr

/-- `MeilisearchIndex.prepare_documents` (index.py, lines 187-203):
skip a record if `_should_skip` says so, otherwise project it with
`_process_model_instance` and keep the non-`None` results. -/
def prepare_documents (cfg : BackendConfig) (model : ModelInfo)
    (items : List RecordInstance) : List MeiliDocument :=
  items.filterMap (fun item =>
    if should_skip cfg model item then none
    else if process_model_instance_skips item then none
    else some ⟨item.pk⟩)

/-- A record is excluded from projection (no document produced) when
either `_should_skip` or the `_process_model_instance` live-guard drops
it. -/
def record_is_excluded (cfg : BackendConfig) (model : ModelInfo)
    (item : RecordInstance) : Bool :=
  should_skip cfg model item || process_model_instance_skips item

/-- Check (a) of the spec: the record's type is in the skip-list. -/
def check_skip_list (cfg : BackendConfig) (model : ModelInfo) : Bool :=
  model_is_skipped model cfg.skip_models

/-- Check (b) of the spec: the record's type has a field-value rule and
the record's field equals the forbidden value. -/
def check_field_value (cfg : BackendConfig) (model : ModelInfo)
    (item : RecordInstance) : Bool :=
  match dictGet cfg.skip_models_by_field_value (model_identifier model) with
  | some rule => getattrOpt item rule.field == some rule.value
  | none => false

/-- Check (c) of the spec: the record carries a live flag that is false. -/
def check_not_live (item : RecordInstance) : Bool :=
  item.live_attr == some false

/-- The order the spec claims the three checks are evaluated in:
skip-list, then field-value rule, then live flag, first match
short-circuiting. -/
def claimed_skip_order (cfg : BackendConfig) (model : ModelInfo)
    (item : RecordInstance) : Option SkipReason :=
  if check_skip_list cfg model then some .inSkipList
  else if check_field_value cfg model item then some .fieldValueMatch
  else if check_not_live item then some .notLive
  else none

/-! ## Engine calls and their outcomes (index.py) -/

/-- `MeilisearchApiError`, discriminated the way the source does — by
whether `str(e)` names `index_not_found` or `document_not_found`. -/
inductive MeiliApiError where
  | indexNotFoundErr (msg : String)
  | documentNotFoundErr (msg : String)
  | otherErr (msg : String)
deriving DecidableEq, Repr

/-- `"index_not_found" in str(e)`. -/
def MeiliApiError.isIndexNotFound : MeiliApiError → Bool
  | .indexNotFoundErr _ => true
  | _ => false

/-- `"document_not_found" in str(e)`. -/
def MeiliApiError.isDocumentNotFound : MeiliApiError → Bool
  | .documentNotFoundErr _ => true
  | _ => false

/-- Which document-write call `add_items` issues to the engine. -/
inductive IndexWriteCall where
  | update_documents (documents : List MeiliDocument)
  | add_documents (documents : List MeiliDocument)
deriving DecidableEq, Repr

/-- The engine-call outcomes `add_items` can observe on one call: the
result of `self.index.get_documents().total` (a count, or a raised
`MeilisearchApiError`), and the task uids the update/add calls would
return. -/
structure AddItemsEnv where
  get_documents_total : Except MeiliApiError Nat
  update_task : Nat
  add_task : Nat
deriving Repr

/-- `MeilisearchIndex.add_items` (index.py, lines 140-162): projects the
items; with zero documents returns `None` (no engine call); otherwise
checks, on this call, whether the index holds documents and issues
`update_documents` if it does, `add_documents` if it does not (also when
the existence check raises `index_not_found`), returning the issued call
paired with its task; any other engine error propagates. -/
def add_items (env : AddItemsEnv) (cfg : BackendConfig) (model : ModelInfo)
    (items : List RecordInstance) :
    Except MeiliApiError (Option (IndexWriteCall × Nat)) :=
  let documents := prepare_documents cfg model items
  if documents.length > 0 then
    match env.get_documents_total with
    | .ok total =>
        if total > 0 then .ok (some (.update_documents documents, env.update_task))
        else .ok (some (.add_documents documents, env.add_task))
    | .error e =>
        if e.isIndexNotFound then .ok (some (.add_documents documents, env.add_task))
        else .error e
  else
    .ok none

/-- `MeilisearchIndex.delete_item` (index.py, lines 259-278), as a
function of the outcome of `self.index.delete_document(pk)`: a
`document_not_found` error is swallowed (returns `None`); any other
engine error is re-raised. -/
def delete_item (delete_document_call : Except MeiliApiError Nat) :
    Except MeiliApiError (Option Nat) :=
  match delete_document_call with
  | .ok task => .ok (some task)
  | .error e => if e.isDocumentNotFound then .ok none else .error e

/-- `MeilisearchIndex.bulk_delete_items` (index.py, lines 280-295), as a
function of the outcome of `self.index.delete_documents(pk_list)`:
empty input returns `None` without calling the engine; any
`MeilisearchApiError` from the delete call — the `except` branch does
not special-case `document_not_found` — is logged and re-raised. -/
def bulk_delete_items (delete_documents_call : Except MeiliApiError Nat)
    (item_pks : List Nat) : Except MeiliApiError (Option Nat) :=
  if item_pks.isEmpty then .ok none
  else
    match delete_documents_call with
    | .ok task => .ok (some task)
    | .error e => .error e

/-- `MeilisearchIndex.cleanup_stale_documents` (index.py, lines
297-315), as a function of the fetched current index IDs
(`{doc["id"] for doc in current_docs.results}`) and the live primary
keys; `pyStrOf` is Python `str` on the primary-key type.  The result is
the set handed to `bulk_delete_items` (`some stale_ids` when the stale
set is non-empty) or `none` when no delete is invoked. -/
def cleanup_stale_documents {α : Type} (current_index_ids : Finset String)
    (live_pks : List α) (pyStrOf : α → String) : Option (Finset String) :=
  let live_ids : Finset String := (live_pks.map pyStrOf).toFinset
  let stale_ids := current_index_ids \ live_ids
  if stale_ids.Nonempty then some stale_ids else none

/-! ## Rebuilder (`rebuilder.py`)

`MeilisearchRebuilder.start` and `finish` are sequences of client calls
inside a `try` whose `except Exception` wraps any raised exception in a
`MeiliSearchRebuildException`.  Each client call's outcome is an input
here, and each method is split into its `try`-body (which can raise any
`PyException`) and the wrapper that re-raises as the rebuild error. -/

/-- An exception escaping the `try`-body: an engine/client error, or a
`MeiliSearchRebuildException` the body itself raised. -/
inductive PyException where
  | engineErr (msg : String)
  | rebuildErr (msg : String)
deriving DecidableEq, Repr

/-- Python `str(e)`. -/
def PyException.text : PyException → String
  | .engineErr m => m
  | .rebuildErr m => m

/-- `MeiliSearchRebuildException` (exceptions.py), carrying its
message. -/
structure MeiliSearchRebuildExc where
  message : String
deriving DecidableEq, Repr

/-- Outcomes of the client calls `start` makes: the two
`is_in_meilisearch` checks (which never raise — they map errors to
`False`), the `client.index(new_index_name).delete()` call, the
`client.wait_for_task` call, and the boolean
`check_for_task_successful_completion` reports for the shadow
deletion. -/
structure StartEnv where
  logical_index_exists : Bool
  shadow_index_exists : Bool
  delete_shadow_call : Except PyException Nat
  wait_for_task_call : Except PyException Unit
  shadow_delete_succeeded : Bool

/-- The `try`-body of `MeilisearchRebuilder.start` (rebuilder.py, lines
34-59), returning the write target (`self.index.name` after the call). -/
def rebuilder_start_body (name : String) (env : StartEnv) : Except PyException String :=
  if env.logical_index_exists then
    let new_index_name := name ++ "_new"
    if env.shadow_index_exists then
      match env.delete_shadow_call with
      | .error e => .error e
      | .ok _task =>
        match env.wait_for_task_call with
        | .error e => .error e
        | .ok _ =>
          if !env.shadow_delete_succeeded then
            .error (PyException.rebuildErr
              ("Failed to delete existing temporary index " ++ new_index_name))
          else
            .ok new_index_name
    else
      .ok new_index_name
  else
    .ok name

/-- `MeilisearchRebuilder.start` (rebuilder.py, lines 25-65): the body
with its `except Exception` clause, which wraps any exception as
`MeiliSearchRebuildException(f"Failed to start rebuild process: {e}")`. -/
def rebuilder_start (name : String) (env : StartEnv) :
    Except MeiliSearchRebuildExc String :=
  match rebuilder_start_body name env with
  | .ok target => .ok target
  | .error e => .error ⟨"Failed to start rebuild process: " ++ e.text⟩

/-- Outcomes of the client calls `finish` makes: the
`is_in_meilisearch` check on the shadow name, the
`client.swap_indexes` call, the success of the swap task, the
`client.index(temp).delete()` call, and the success of the delete
task. -/
structure FinishEnv where
  shadow_index_exists : Bool
  swap_call : Except PyException Nat
  swap_succeeded : Bool
  delete_call : Except PyException Nat
  delete_succeeded : Bool

/-- The `try`-body of `MeilisearchRebuilder.finish` (rebuilder.py, lines
78-109), returning the task it returns (`None` when no shadow exists,
else the shadow-deletion task).  When the swap task succeeds, the
outcome of the shadow-deletion task (`delete_succeeded`) only selects a
log message — it cannot raise; when the swap task does not succeed,
`MeiliSearchRebuildException("Failed to swap indexes")` is raised. -/
def rebuilder_finish_body (env : FinishEnv) : Except PyException (Option Nat) :=
  if env.shadow_index_exists then
    match env.swap_call with
    | .error e => .error e
    | .ok _swap_task =>
      if env.swap_succeeded then
        match env.delete_call with
        | .error e => .error e
        | .ok delete_task => .ok (some delete_task)
      else
        .error (PyException.rebuildErr "Failed to swap indexes")
  else
    .ok none

/-- `MeilisearchRebuilder.finish` (rebuilder.py, lines 67-114): the body
with its `except Exception` clause, which wraps any exception as
`MeiliSearchRebuildException(f"Error while finishing the rebuild: {e}")`. -/
def rebuilder_finish (env : FinishEnv) :
    Except MeiliSearchRebuildExc (Option Nat) :=
  match rebuilder_finish_body env with
  | .ok task => .ok task
  | .error e => .error ⟨"Error while finishing the rebuild: " ++ e.text⟩

/-! ## Theorems -/

/-- Evaluation helper: `String.toLower` as a structural map over the
character list (`String.mapAux` itself is defined by well-founded
recursion and does not reduce definitionally). -/
theorem string_toLower_eq (s : String) : s.toLower = String.mk (s.data.map Char.toLower) :=
  String.map_eq Char.toLower s

/-- Claim C8: for every list of child queries, compiling an `And` node
and compiling an `Or` node over the same children produce the identical
output: the children's compiled forms joined by a single space in both
cases. -/
theorem compile_and_or_identical (subqueries : List WagtailQuery) :
    compile_query (.and_all subqueries) = compile_query (.or_any subqueries)
  ∧ compile_query (.and_all subqueries) =
      (joinCompiled (compile_query_list subqueries)).map PyQueryValue.str := by
  constructor <;> simp [compile_query]

/-- Claim C9: the autocomplete compiler's `get_query` maps `MatchAll` to
the empty string and `PlainText` to its query string verbatim, and
raises `NotImplementedError` for an AST node of any other kind. -/
theorem autocomplete_get_query_spec (s : String) (q : WagtailQuery)
    (hma : q ≠ .matchAll) (hpt : ∀ t, q ≠ .plainText t) :
    autocomplete_get_query (.node .matchAll) = .ok ""
  ∧ autocomplete_get_query (.node (.plainText s)) = .ok s
  ∧ autocomplete_get_query (.node q) =
      .error (.notImplementedError
        ("`" ++ q.className ++ "` is not supported for autocomplete queries.")) := by
  refine ⟨rfl, rfl, ?_⟩
  cases q
  case matchAll => exact absurd rfl hma
  case plainText t => exact absurd rfl (hpt t)
  all_goals rfl

/-- Witness for C9 at a concrete unsupported node (`Phrase`). -/
theorem autocomplete_get_query_spec_witness :
    autocomplete_get_query (.node (.phrase "dune")) =
      .error (.notImplementedError "`Phrase` is not supported for autocomplete queries.") :=
  (autocomplete_get_query_spec "s" (.phrase "dune")
    (fun h => nomatch h) (fun _ h => nomatch h)).2.2

/-- Claim C10, counterexample: the index name of a proxy model is
derived from `proxy_for_model` — the *immediate* base — not from the
concrete base model.  For a proxy of a proxy, `MeilisearchIndex.__init__`
names the index after the intermediate proxy's class name, so the model
maps to the same index as neither its base model nor the concrete base
model: the claim's "every proxy model ... always map to the same logical
index name" fails. -/
theorem proxy_of_proxy_index_name_counterexample :
    DjangoModel.proxy
        (.mk "testapp" "ProxyB"
          (some (.mk "testapp" "ProxyA" (some (.mk "testapp" "MoviePage" none))))) = true
  ∧ meilisearch_index_name
        (.mk "testapp" "ProxyB"
          (some (.mk "testapp" "ProxyA" (some (.mk "testapp" "MoviePage" none)))))
      = "testapp_proxya"
  ∧ meilisearch_index_name (.mk "testapp" "ProxyA" (some (.mk "testapp" "MoviePage" none)))
      = "testapp_moviepage"
  ∧ meilisearch_index_name (.mk "testapp" "MoviePage" none) = "testapp_moviepage"
  ∧ ("testapp_proxya" : String) ≠ "testapp_moviepage" := by
  refine ⟨rfl, ?_, ?_, ?_, by decide⟩ <;>
    · unfold meilisearch_index_name DjangoModel.app_label DjangoModel.model_name
      simp only [string_toLower_eq]
      rfl

/-- Claim C10 (amended): for a proxy model, the index's logical name is
derived from its `proxy_for_model` base's app label and class name,
lower-cased and joined by an underscore; hence a proxy model whose base
is a concrete (non-proxy) model maps to the same logical index name as
that base.  (A proxy of a proxy instead takes its name from the
intermediate proxy's class name — see the counterexample.) -/
theorem proxy_model_index_name (m base : DjangoModel)
    (hp : m.proxy_for_model = some base)
    (hb : base.proxy_for_model = none) :
    meilisearch_index_name m
        = base.app_label.toLower ++ "_" ++ base.model_name.toLower
  ∧ meilisearch_index_name m = meilisearch_index_name base := by
  constructor
  · unfold meilisearch_index_name
    rw [hp]
  · unfold meilisearch_index_name
    rw [hp, hb]

/-- Witness for C10: a concrete proxy model over a concrete base. -/
theorem proxy_model_index_name_witness :
    meilisearch_index_name
        (.mk "testapp" "MovieProxy" (some (.mk "testapp" "MoviePage" none)))
      = meilisearch_index_name (.mk "testapp" "MoviePage" none) :=
  (proxy_model_index_name
    (.mk "testapp" "MovieProxy" (some (.mk "testapp" "MoviePage" none)))
    (.mk "testapp" "MoviePage" none) rfl rfl).2

/-- Claim C6: `_process_lookup` produces exactly the filter string of
the spec's table for each recognized lookup kind, and the empty string
for every unrecognized lookup kind. -/
theorem process_lookup_table (field s : String) (v a b : LookupValue)
    (vs : List LookupValue) (tv : Bool) (lookup : String)
    (hl : lookup ∉ ["exact", "iexact", "contains", "icontains", "in", "gt", "gte",
        "lt", "lte", "range", "exclude", "isnull", "startswith", "endswith"]) :
    process_lookup field "exact" v = some (field ++ ":\"" ++ pyToStr v ++ "\"")
  ∧ process_lookup field "iexact" (.str s) = some (field ++ ":\"" ++ s.toLower ++ "\"")
  ∧ process_lookup field "contains" v = some (field ++ ":" ++ pyToStr v)
  ∧ process_lookup field "icontains" v = some (field ++ ":" ++ pyToStr v)
  ∧ process_lookup field "in" (.list vs) =
      some (String.intercalate " OR " (vs.map (fun w => field ++ ":" ++ pyToStr w)))
  ∧ process_lookup field "in" (.str s) = some (field ++ ":" ++ s)
  ∧ process_lookup field "gt" v = some (field ++ " > " ++ pyToStr v)
  ∧ process_lookup field "gte" v = some (field ++ " >= " ++ pyToStr v)
  ∧ process_lookup field "lt" v = some (field ++ " < " ++ pyToStr v)
  ∧ process_lookup field "lte" v = some (field ++ " <= " ++ pyToStr v)
  ∧ process_lookup field "range" (.list [a, b]) =
      some (field ++ " " ++ pyToStr a ++ " TO " ++ pyToStr b)
  ∧ process_lookup field "exclude" v = some ("NOT " ++ field ++ ":" ++ pyToStr v)
  ∧ process_lookup field "isnull" (.bool tv) =
      some (if tv then field ++ " = NULL" else field ++ " != NULL")
  ∧ process_lookup field "startswith" v = some (field ++ ":" ++ pyToStr v ++ "*")
  ∧ process_lookup field "endswith" v = some (field ++ ":*" ++ pyToStr v)
  ∧ process_lookup field lookup v = some "" := by
  simp only [List.mem_cons, List.mem_singleton, not_or] at hl
  obtain ⟨h1, h2, h3, h4, h5, h6, h7, h8, h9, h10, h11, h12, h13, h14, -⟩ := hl
  refine ⟨rfl, rfl, rfl, rfl, rfl, rfl, rfl, rfl, rfl, rfl, rfl, rfl, ?_, rfl, rfl, ?_⟩
  · cases tv <;> rfl
  · simp [process_lookup, h1, h2, h3, h4, h5, h6, h7, h8, h9, h10, h11, h12, h13, h14]

/-- Witness for C6 at the spec's own examples:
`_process_lookup("title", "exact", "Dune")` and
`_process_lookup("year", "range", (1980, 1990))`, plus an unrecognized
lookup kind. -/
theorem process_lookup_table_witness :
    process_lookup "title" "exact" (.str "Dune") = some "title:\"Dune\""
  ∧ process_lookup "year" "range" (.list [.num 1980, .num 1990]) = some "year 1980 TO 1990"
  ∧ process_lookup "title" "regex" (.str "Dune") = some "" := by
  have h := process_lookup_table "title" "Dune" (.str "Dune") (.num 1980) (.num 1990)
    [] true "regex" (by decide)
  exact ⟨h.1, (process_lookup_table "year" "x" (.str "x") (.num 1980) (.num 1990)
    [] true "regex" (by decide)).2.2.2.2.2.2.2.2.2.2.1, h.2.2.2.2.2.2.2.2.2.2.2.2.2.2.2⟩

/-- Claim C4, counterexample to the claimed evaluation order.  For a
`Page` record that is not live *and* matches its type's field-value
rule, `_should_skip` fires the not-live check (and logs its message),
not the field-value check: the source evaluates skip-list, then
live-flag (for pages), then field-value — not skip-list, field-value,
live-flag as the claim states. -/
theorem skip_check_order_counterexample :
    should_skip_reason ⟨[], [("testapp.moviepage", ⟨"status", "draft"⟩)]⟩
        ⟨"testapp", "MoviePage"⟩ ⟨7, true, some false, [("status", "draft")]⟩
      = some .notLive
  ∧ claimed_skip_order ⟨[], [("testapp.moviepage", ⟨"status", "draft"⟩)]⟩
        ⟨"testapp", "MoviePage"⟩ ⟨7, true, some false, [("status", "draft")]⟩
      = some .fieldValueMatch
  ∧ (some SkipReason.notLive ≠ some SkipReason.fieldValueMatch) := by
  refine ⟨rfl, ?_, by decide⟩
  unfold claimed_skip_order check_skip_list check_field_value model_is_skipped model_identifier
  simp only [string_toLower_eq]
  rfl

/-- Claim C4 (amended): a record is excluded from projection exactly
when (a) its type is in the skip-list, (b) its type's field-value rule
matches, or (c) it carries a live flag that is false; but inside
`_should_skip` the evaluation order is skip-list first, then the
not-live check (applied to `Page` instances), then the field-value rule,
the first match short-circuiting; the live-flag exclusion for non-page
records happens afterwards, in `_process_model_instance`. -/
theorem record_exclusion_spec (cfg : BackendConfig) (model : ModelInfo)
    (item : RecordInstance) :
    record_is_excluded cfg model item =
      (check_skip_list cfg model || check_field_value cfg model item || check_not_live item)
  ∧ should_skip_reason cfg model item =
      (if check_skip_list cfg model then some .inSkipList
       else if item.is_page && check_not_live item then some .notLive
       else if check_field_value cfg model item then some .fieldValueMatch
       else none)
  ∧ (record_is_excluded cfg model item = false ↔
      prepare_documents cfg model [item] = [⟨item.pk⟩]) := by
  have hord : should_skip_reason cfg model item =
      (if check_skip_list cfg model then some .inSkipList
       else if item.is_page && check_not_live item then some .notLive
       else if check_field_value cfg model item then some .fieldValueMatch
       else none) := by
    unfold should_skip_reason check_skip_list check_not_live check_field_value
    rcases h : dictGet cfg.skip_models_by_field_value (model_identifier model) with _ | rule <;>
      simp [h]
  refine ⟨?_, hord, ?_⟩
  · unfold record_is_excluded should_skip process_model_instance_skips
    rw [hord]
    by_cases ha : check_skip_list cfg model <;>
      by_cases hp : item.is_page = true <;>
      by_cases hc : check_not_live item = true <;>
      by_cases hb : check_field_value cfg model item = true <;>
      simp_all [check_not_live]
  · unfold prepare_documents record_is_excluded process_model_instance_skips
    by_cases hs : should_skip cfg model item <;>
      by_cases hc : (item.live_attr == some false) = true <;>
      simp_all [should_skip]

/-- Claim C1: `cleanup_stale_documents(L)` computes the stale set as
exactly `D` minus the element-wise stringification of `L`, invokes the
bulk delete on exactly that set if and only if it is non-empty, never
passes an ID whose stringified primary key is in `L`, and passes every
ID of `D` outside `stringify(L)`. -/
theorem cleanup_stale_documents_correct {α : Type} (D : Finset String) (L : List α)
    (pyStrOf : α → String) :
    cleanup_stale_documents D L pyStrOf =
      (if (D \ (L.map pyStrOf).toFinset).Nonempty
        then some (D \ (L.map pyStrOf).toFinset) else none)
  ∧ (∀ S, cleanup_stale_documents D L pyStrOf = some S →
      S = D \ (L.map pyStrOf).toFinset
      ∧ (∀ pk ∈ L, pyStrOf pk ∉ S)
      ∧ (∀ x ∈ D, x ∉ L.map pyStrOf → x ∈ S))
  ∧ (cleanup_stale_documents D L pyStrOf = none ↔
      D \ (L.map pyStrOf).toFinset = ∅) := by
  refine ⟨rfl, ?_, ?_⟩
  · intro S hS
    unfold cleanup_stale_documents at hS
    by_cases h : (D \ (L.map pyStrOf).toFinset).Nonempty
    · rw [if_pos h] at hS
      obtain rfl := (Option.some.injEq _ _).mp hS
      refine ⟨rfl, ?_, ?_⟩
      · intro pk hpk
        rw [Finset.mem_sdiff]
        rintro ⟨-, hnot⟩
        exact hnot (List.mem_toFinset.mpr (List.mem_map_of_mem pyStrOf hpk))
      · intro x hx hnx
        exact Finset.mem_sdiff.mpr ⟨hx, fun hm => hnx (List.mem_toFinset.mp hm)⟩
    · rw [if_neg h] at hS
      exact absurd hS (by simp)
  · unfold cleanup_stale_documents
    by_cases h : (D \ (L.map pyStrOf).toFinset).Nonempty
    · rw [if_pos h]
      simp [← Finset.not_nonempty_iff_eq_empty, h]
    · rw [if_neg h]
      simp [← Finset.not_nonempty_iff_eq_empty, h]

/-- Witness for C1: with index IDs `{"1", "2"}` and live key `1`, the
delete receives exactly `{"2"}`; the live ID `"1"` is not passed. -/
theorem cleanup_stale_documents_correct_witness :
    toString (1 : Nat) ∉ ({"2"} : Finset String) ∧ "2" ∈ ({"2"} : Finset String) := by
  have h := (cleanup_stale_documents_correct {"1", "2"} [(1 : Nat)] toString).2.1
    {"2"} (by decide)
  exact ⟨h.2.1 1 (by decide), h.2.2 "2" (by decide) (by decide)⟩

/-- Claim C2: `start()` targets `name + "_new"` when the logical index
exists (deleting a leftover shadow first, fatally unless that deletion
is confirmed successful), keeps the logical name on a cold start, and
wraps any exception of the sequence as `MeiliSearchRebuildException`. -/
theorem rebuilder_start_spec (name : String) (env : StartEnv) (tuid : Nat) :
    (env.logical_index_exists = true → env.shadow_index_exists = false →
      rebuilder_start name env = .ok (name ++ "_new"))
  ∧ (env.logical_index_exists = true → env.shadow_index_exists = true →
      env.delete_shadow_call = .ok tuid → env.wait_for_task_call = .ok () →
      env.shadow_delete_succeeded = true →
      rebuilder_start name env = .ok (name ++ "_new"))
  ∧ (env.logical_index_exists = true → env.shadow_index_exists = true →
      env.delete_shadow_call = .ok tuid → env.wait_for_task_call = .ok () →
      env.shadow_delete_succeeded = false →
      rebuilder_start name env =
        .error ⟨"Failed to start rebuild process: Failed to delete existing temporary index "
          ++ (name ++ "_new")⟩)
  ∧ (env.logical_index_exists = false → rebuilder_start name env = .ok name)
  ∧ (∀ e, rebuilder_start_body name env = .error e →
      rebuilder_start name env = .error ⟨"Failed to start rebuild process: " ++ e.text⟩)
  ∧ (∀ e, rebuilder_start_body name env = .error e →
      ∀ target, rebuilder_start name env ≠ .ok target) := by
  refine ⟨?_, ?_, ?_, ?_, ?_, ?_⟩
  · intro h1 h2
    simp [rebuilder_start, rebuilder_start_body, h1, h2]
  · intro h1 h2 h3 h4 h5
    simp [rebuilder_start, rebuilder_start_body, h1, h2, h3, h4, h5]
  · intro h1 h2 h3 h4 h5
    simp [rebuilder_start, rebuilder_start_body, h1, h2, h3, h4, h5, PyException.text]
    rw [← String.append_assoc]
    congr 1
  · intro h1
    simp [rebuilder_start, rebuilder_start_body, h1]
  · intro e he
    simp [rebuilder_start, he]
  · intro e he target
    simp [rebuilder_start, he]

/-- Witness for C2: concrete runs of `start()` — a leftover shadow whose
deletion is not confirmed is fatal; a cold start keeps the logical
name. -/
theorem rebuilder_start_spec_witness :
    rebuilder_start "testapp_moviepage" ⟨true, true, .ok 5, .ok (), false⟩ =
      .error ⟨"Failed to start rebuild process: Failed to delete existing temporary index testapp_moviepage_new"⟩
  ∧ rebuilder_start "testapp_moviepage" ⟨false, false, .ok 5, .ok (), true⟩ =
      .ok "testapp_moviepage" := by
  constructor
  · exact (rebuilder_start_spec "testapp_moviepage" ⟨true, true, .ok 5, .ok (), false⟩ 5).2.2.1
      rfl rfl rfl rfl rfl
  · exact (rebuilder_start_spec "testapp_moviepage" ⟨false, false, .ok 5, .ok (), true⟩ 5).2.2.2.1
      rfl

/-- Claim C3: in `finish()`, with a shadow index present, an
unsuccessful swap task raises the rebuild exception, while a successful
swap followed by an unconfirmed shadow-index deletion raises nothing —
`finish()` still returns the deletion task. -/
theorem rebuilder_finish_spec (env : FinishEnv) (swap_uid delete_uid : Nat)
    (hshadow : env.shadow_index_exists = true)
    (hswap_call : env.swap_call = .ok swap_uid) :
    (env.swap_succeeded = false →
      rebuilder_finish env =
        .error ⟨"Error while finishing the rebuild: Failed to swap indexes"⟩)
  ∧ (env.swap_succeeded = true → env.delete_call = .ok delete_uid →
      env.delete_succeeded = false →
      rebuilder_finish env = .ok (some delete_uid))
  ∧ (env.swap_succeeded = true → env.delete_call = .ok delete_uid →
      rebuilder_finish env = .ok (some delete_uid)) := by
  refine ⟨?_, ?_, ?_⟩
  · intro h1
    simp [rebuilder_finish, rebuilder_finish_body, hshadow, hswap_call, h1, PyException.text]
  · intro h1 h2 _
    simp [rebuilder_finish, rebuilder_finish_body, hshadow, hswap_call, h1, h2]
  · intro h1 h2
    simp [rebuilder_finish, rebuilder_finish_body, hshadow, hswap_call, h1, h2]

/-- Witness for C3: a concrete `finish()` where the swap succeeds but
the shadow deletion is not confirmed returns the deletion task without
raising; one where the swap fails raises. -/
theorem rebuilder_finish_spec_witness :
    rebuilder_finish ⟨true, .ok 8, true, .ok 9, false⟩ = .ok (some 9)
  ∧ rebuilder_finish ⟨true, .ok 8, false, .ok 9, true⟩ =
      .error ⟨"Error while finishing the rebuild: Failed to swap indexes"⟩ := by
  constructor
  · exact (rebuilder_finish_spec ⟨true, .ok 8, true, .ok 9, false⟩ 8 9 rfl rfl).2.1 rfl rfl rfl
  · exact (rebuilder_finish_spec ⟨true, .ok 8, false, .ok 9, true⟩ 8 9 rfl rfl).1 rfl

/-- Claim C5: on every call, `add_items` returns `None` without any
engine call when projection yields zero documents; otherwise it consults
the index's current document count on that very call (the count is an
input of each call, never cached) and issues `update_documents` when the
index holds documents, `add_documents` when it holds none (also when the
count probe reports the index missing), returning the issued call's
task handle; any other probe error propagates. -/
theorem add_items_spec (env : AddItemsEnv) (cfg : BackendConfig) (model : ModelInfo)
    (items : List RecordInstance) (total : Nat) (msg : String) :
    (prepare_documents cfg model items = [] → add_items env cfg model items = .ok none)
  ∧ (prepare_documents cfg model items ≠ [] →
      env.get_documents_total = .ok total → 0 < total →
      add_items env cfg model items =
        .ok (some (.update_documents (prepare_documents cfg model items), env.update_task)))
  ∧ (prepare_documents cfg model items ≠ [] →
      env.get_documents_total = .ok 0 →
      add_items env cfg model items =
        .ok (some (.add_documents (prepare_documents cfg model items), env.add_task)))
  ∧ (prepare_documents cfg model items ≠ [] →
      env.get_documents_total = .error (.indexNotFoundErr msg) →
      add_items env cfg model items =
        .ok (some (.add_documents (prepare_documents cfg model items), env.add_task)))
  ∧ (prepare_documents cfg model items ≠ [] →
      env.get_documents_total = .error (.otherErr msg) →
      add_items env cfg model items = .error (.otherErr msg)) := by
  refine ⟨?_, ?_, ?_, ?_, ?_⟩
  · intro h
    simp [add_items, h]
  · intro h h1 h2
    simp [add_items, h1, h2, List.length_pos.mpr h]
  · intro h h1
    simp [add_items, h1, List.length_pos.mpr h]
  · intro h h1
    simp [add_items, h1, List.length_pos.mpr h, MeiliApiError.isIndexNotFound]
  · intro h h1
    simp [add_items, h1, List.length_pos.mpr h, MeiliApiError.isIndexNotFound]

/-- Witness for C5: a non-empty batch against an index holding 3
documents issues the update call; the same batch against an index
holding none issues the add call; an empty batch returns `None`. -/
theorem add_items_spec_witness :
    add_items ⟨.ok 3, 10, 11⟩ ⟨[], []⟩ ⟨"testapp", "Movie"⟩ [⟨1, false, none, []⟩] =
      .ok (some (.update_documents [⟨1⟩], 10))
  ∧ add_items ⟨.ok 0, 10, 11⟩ ⟨[], []⟩ ⟨"testapp", "Movie"⟩ [⟨1, false, none, []⟩] =
      .ok (some (.add_documents [⟨1⟩], 11))
  ∧ add_items ⟨.ok 3, 10, 11⟩ ⟨[], []⟩ ⟨"testapp", "Movie"⟩ [] = .ok none := by
  refine ⟨?_, ?_, ?_⟩
  · exact (add_items_spec ⟨.ok 3, 10, 11⟩ ⟨[], []⟩ ⟨"testapp", "Movie"⟩
      [⟨1, false, none, []⟩] 3 "m").2.1 (by decide) rfl (by decide)
  · exact (add_items_spec ⟨.ok 0, 10, 11⟩ ⟨[], []⟩ ⟨"testapp", "Movie"⟩
      [⟨1, false, none, []⟩] 0 "m").2.2.1 (by decide) rfl
  · exact (add_items_spec ⟨.ok 3, 10, 11⟩ ⟨[], []⟩ ⟨"testapp", "Movie"⟩
      [] 3 "m").1 rfl

/-- Claim C7, counterexample: `bulk_delete_items` does *not* share
`delete_item`'s tolerance of "document not found" — its `except` branch
re-raises every `MeilisearchApiError`.  On the same document-not-found
outcome, `delete_item` returns `None` but `bulk_delete_items`
propagates the error instead of returning `None`. -/
theorem bulk_delete_items_counterexample :
    bulk_delete_items (.error (.documentNotFoundErr "Document 1 not found.")) [1] =
      .error (.documentNotFoundErr "Document 1 not found.")
  ∧ bulk_delete_items (.error (.documentNotFoundErr "Document 1 not found.")) [1] ≠ .ok none
  ∧ delete_item (.error (.documentNotFoundErr "Document 1 not found.")) = .ok none := by
  refine ⟨rfl, ?_, rfl⟩
  intro h
  simp [bulk_delete_items] at h

/-- Claim C7 (amended): `bulk_delete_items` is a no-op returning `None`
for empty input, returns the engine task for non-empty input, and
propagates every engine error — including "document not found", which
only the single-document `delete_item` swallows as a no-op. -/
theorem bulk_delete_items_spec (call : Except MeiliApiError Nat) (item_pks : List Nat)
    (e : MeiliApiError) (t : Nat) :
    (item_pks = [] → bulk_delete_items call item_pks = .ok none)
  ∧ (item_pks ≠ [] → call = .ok t → bulk_delete_items call item_pks = .ok (some t))
  ∧ (item_pks ≠ [] → call = .error e → bulk_delete_items call item_pks = .error e)
  ∧ delete_item (.error e) = (if e.isDocumentNotFound then .ok none else .error e)
  ∧ delete_item (.ok t) = .ok (some t) := by
  refine ⟨?_, ?_, ?_, rfl, rfl⟩
  · intro h
    simp [bulk_delete_items, h]
  · intro h h1
    simp [bulk_delete_items, h, h1]
  · intro h h1
    simp [bulk_delete_items, h, h1]

/-- Witness for C7's amended claim at concrete inputs. -/
theorem bulk_delete_items_spec_witness :
    bulk_delete_items (.ok 4) [] = .ok none
  ∧ bulk_delete_items (.ok 4) [1, 2] = .ok (some 4)
  ∧ bulk_delete_items (.error (.otherErr "bad request")) [1, 2] =
      .error (.otherErr "bad request") := by
  refine ⟨?_, ?_, ?_⟩
  · exact (bulk_delete_items_spec (.ok 4) [] (.otherErr "bad request") 4).1 rfl
  · exact (bulk_delete_items_spec (.ok 4) [1, 2] (.otherErr "bad request") 4).2.1
      (by decide) rfl
  · exact (bulk_delete_items_spec (.error (.otherErr "bad request")) [1, 2]
      (.otherErr "bad request") 4).2.2.1 (by decide) rfl

end Wagtailmeili
